import Mathlib

/-!
Verification of the multi-tenant request-authorization subsystem of the
placement-crm repository: a shallow embedding of the connection-pool manager
(`config/db.js`), the tenant-key extraction (`middleware/requestLogger.js`,
tenant resolver part), the authentication gate (`middleware/authMiddleware.js`)
and the transactional write services (`tenantService.js`, `userService.js`,
`studentService.js`), together with theorems settling the specified claims.
-/

namespace PCRM

/-! ## Basic string helpers (embeddings of the JavaScript string primitives) -/

/-- Embedding of `String.prototype.split(sep)` for a single separator
character, over `List Char`.  `"a:b".split(':') = ["a","b"]`,
`"".split(':') = [""]`. -/
def splitOnChar (c : Char) : List Char → List (List Char)
  | [] => [[]]
  | x :: xs =>
    let r := splitOnChar c xs
    if x = c then [] :: r
    else
      match r with
      | [] => [[x]]
      | y :: ys => (x :: y) :: ys

/-- Embedding of `String.prototype.toLowerCase()` (ASCII, as used on
hostnames and email addresses in this codebase). -/
def lowerChars (l : List Char) : List Char := l.map Char.toLower

/-- `LOWER(...)`/`toLowerCase` on a `String`; used by the SQL uniqueness
checks `WHERE LOWER(col) = LOWER($1)`. -/
def lowerStr (s : String) : String := ⟨lowerChars s.data⟩

/-- Helper for `String.prototype.includes`: Boolean test that the first list
starts the second. -/
def leadsChars : List Char → List Char → Bool
  | [], _ => true
  | _ :: _, [] => false
  | a :: as, b :: bs => a == b && leadsChars as bs

/-- Embedding of `String.prototype.includes(needle)` (substring containment),
used by the controller error mapping `err.message.includes(...)`. -/
def hasSubstr : List Char → List Char → Bool
  | [], needle => leadsChars needle []
  | h :: t, needle => leadsChars needle (h :: t) || hasSubstr t needle

/-! ## ConnectionPoolManager (`src/unnamed/part_004`, the multi-tenant `db.js`)

Pools are identified by numeric ids; the main pool is id `0`, tenant pools
get fresh ids from a counter.  The cache is the `tenantPools` map keyed by
the connection string (`db_url`), embedded as an association list. -/

/-- A tenant descriptor as passed to `getPoolForTenant`:
`{ tenant_id, tenant_name, db_url }`.  `none` models a missing (or `null` /
`undefined`) field; the empty string models a present-but-falsy value. -/
structure TenantDesc where
  tenant_id : Option String
  tenant_name : Option String
  db_url : Option String
deriving DecidableEq

/-- Result shape of `validateTenant`: `{ valid, error }`. -/
structure ValidationResult where
  valid : Bool
  error : Option String
deriving DecidableEq

/-- Embedding of `validateTenant(tenant)` from `db.js`: requires a truthy
string `tenant_id` and `tenant_name`. -/
def validateTenant (tenant : Option TenantDesc) : ValidationResult :=
  match tenant with
  | none => ⟨false, some ("Tenant object is required")⟩
  | some t =>
    if t.tenant_id = none ∨ t.tenant_id = some ("") then
      ⟨false, some ("Tenant must have valid tenant_id")⟩
    else if t.tenant_name = none ∨ t.tenant_name = some ("") then
      ⟨false, some ("Tenant must have valid tenant_name")⟩
    else ⟨true, none⟩

/-- Association-list lookup, embedding `Map.prototype.get`/`has` on the
`tenantPools` map. -/
def assocFind : List (String × Nat) → String → Option Nat
  | [], _ => none
  | (k, v) :: rest, key => if k = key then some v else assocFind rest key

/-- The process-wide pool state: the id counter for constructing fresh pools
and the `tenantPools` cache keyed by connection string. -/
structure PoolState where
  nextId : Nat
  tenantPools : List (String × Nat)
deriving DecidableEq

/-- The id of the always-initialized main pool. -/
def mainPoolId : Nat := 0

/-- Pool state at process start: empty cache, fresh ids start at 1. -/
def initPoolState : PoolState := ⟨1, []⟩

/-- Embedding of `getPoolForTenant(tenant)` from `db.js`.  Returns the pool
id (or the thrown error message) together with the possibly-updated pool
state.  A missing/falsy `db_url` yields the main pool; a malformed
descriptor throws before the cache is touched; otherwise the cache is
consulted by exact connection string and a fresh pool is constructed and
cached on a miss. -/
def getPoolForTenant (s : PoolState) (tenant : Option TenantDesc) :
    Except String Nat × PoolState :=
  match tenant with
  | none => (.ok mainPoolId, s)
  | some t =>
    match t.db_url with
    | none => (.ok mainPoolId, s)
    | some u =>
      if u = "" then (.ok mainPoolId, s)
      else
        let validation := validateTenant (some t)
        if validation.valid = false then
          (.error (validation.error.getD ("")), s)
        else
          match assocFind s.tenantPools u with
          | some p => (.ok p, s)
          | none =>
            (.ok s.nextId,
              ⟨s.nextId + 1, (u, s.nextId) :: s.tenantPools⟩)

/-- Well-formedness of the pool cache: the id counter is positive and the
cached pool ids are pairwise distinct, non-zero (distinct from the main
pool) and below the counter. -/
def PoolWF (s : PoolState) : Prop :=
  0 < s.nextId ∧ (s.tenantPools.map Prod.snd).Nodup ∧
    ∀ v ∈ s.tenantPools.map Prod.snd, 0 < v ∧ v < s.nextId

instance (s : PoolState) : Decidable (PoolWF s) := by
  unfold PoolWF; infer_instance

/-! ## Tenant-key extraction (`getSubdomainFromHost`, `requestLogger.js`) -/

/-- The fixed set of reserved leading labels
(`['admin', 'www', 'api', 'app', 'mail', 'ftp']`). -/
def systemLabels : List (List Char) :=
  [("admin").data, ("www").data, ("api").data, ("app").data,
   ("mail").data, ("ftp").data]

/-- Embedding of `getSubdomainFromHost(host)` from the tenant-resolver
middleware: strip the port (`host.split(':')[0]`), lower-case, return `null`
for `localhost`/`127.0.0.1`, require at least two dot-separated labels, and
if the leading label is a reserved system label use the second label as the
tenant key, otherwise the first. -/
def getSubdomainFromHost (host : List Char) : Option (List Char) :=
  if host = [] then none
  else
    let hostname := lowerChars ((splitOnChar ':' host).headD [])
    if hostname = ("localhost").data ∨ hostname = ("127.0.0.1").data then none
    else
      let parts := splitOnChar '.' hostname
      if parts.length < 2 then none
      else if parts.headD [] ∈ systemLabels then some ((parts.get? 1).getD [])
      else some (parts.headD [])

/-! ## AuthenticationGate (`src/src/middleware/authMiddleware.js`)

The middleware is embedded as a pure function over an environment that fixes
the outcome of each external step (token verification and the three database
queries, each of which may also throw), the process pool state, and the
request (authorization header plus the tenant context attached by the
tenant resolver).  The result records the HTTP outcome and whether the
client leased from the main pool was released. -/

/-- A decoded JWT payload (`jwtHelper.verify` result), plus the
`college_id`/`tenant_id` fields the middleware patches in place. -/
structure TokenPayload where
  id : String
  role : String
  college_id : Option String := none
  tenant_id : Option String := none
deriving DecidableEq

/-- Row shape of the college join query in the middleware
(`SELECT c.college_id, c.tenant_id, c.college_status ...`). -/
structure CollegeJoinRow where
  college_id : String
  tenant_id : String
  college_status : String
deriving DecidableEq

/-- Row shape of the tenant query in the middleware
(`SELECT tenant_id, tenant_name, db_url, status FROM tenants ...`). -/
structure TenantRow where
  tenant_id : String
  tenant_name : String
  db_url : Option String
  status : String
deriving DecidableEq

/-- A persisted row of the `users` table.  The table stores a role, but the
middleware user query selects only `user_id, user_status, college_id`. -/
structure UserTableRow where
  user_id : String
  user_status : String
  college_id : String
  user_role : String
deriving DecidableEq

/-- The projection performed by the middleware user query
(`SELECT user_id, user_status, college_id FROM users WHERE user_id = $1`):
the stored `user_role` column is not selected. -/
structure DbUserProj where
  user_id : String
  user_status : String
  college_id : String
deriving DecidableEq

/-- Applies the middleware user query column list to a table row. -/
def projectUser (r : UserTableRow) : DbUserProj :=
  ⟨r.user_id, r.user_status, r.college_id⟩

/-- Outcome of one database query: a row list, or a thrown error. -/
inductive QueryRes (α : Type) where
  | rows (rs : List α)
  | throws
deriving DecidableEq

/-- Per-request environment of the middleware: the token verifier and the
outcomes of the three queries (college join keyed by user id, tenant keyed
by tenant id, user keyed by user id), plus whether `mainPool.connect()`
succeeds. -/
structure AuthEnv where
  verify : List Char → Option TokenPayload
  connectOk : Bool
  collegeQ : String → QueryRes CollegeJoinRow
  tenantQ : String → QueryRes TenantRow
  userQ : String → QueryRes UserTableRow

/-- The tenant context the tenant resolver attaches as `req.tenant`. -/
structure TenantCtx where
  college_id : String
  college_subdomain : String
deriving DecidableEq

/-- The request as the middleware sees it. -/
structure AuthRequest where
  authHeader : Option String
  tenant : Option TenantCtx

/-- Terminal outcome of the middleware: an error response, or `next()` with
the attached `req.user` principal. -/
inductive AuthOutcome where
  | rejected (status : Nat) (message : String)
  | authenticated (principal : TokenPayload)
deriving DecidableEq

/-- Middleware result: outcome plus whether a main-pool client was leased
and whether it was released. -/
structure AuthResult where
  outcome : AuthOutcome
  clientLeased : Bool
  clientReleased : Bool
deriving DecidableEq

/-- Steps 1-2 of the middleware: require an `Authorization` header of the
exact shape `Bearer <token>`; rejections carry the status/message pair. -/
def parseBearer (authHeader : Option String) : Except (Nat × String) (List Char) :=
  match authHeader with
  | none => .error (401, ("Missing Authorization header"))
  | some h =>
    let parts := splitOnChar ' ' h.data
    if parts.length ≠ 2 ∨ parts.headD [] ≠ ("Bearer").data then
      .error (401, ("Invalid Authorization header format"))
    else
      let token := (parts.get? 1).getD []
      if token = [] then .error (401, ("Invalid Authorization header format"))
      else .ok token

/-- Builds the descriptor the middleware passes to `getPoolForTenant`
(`{ tenant_id, tenant_name, db_url }` from the tenant row). -/
def tenantDescOfRow (t : TenantRow) : TenantDesc :=
  ⟨some t.tenant_id, some t.tenant_name, t.db_url⟩

/-- Intermediate result of the college-user validation block (steps 4-7):
either a rejection pair or the patched payload, plus the lease/release flags
and the pool state after the `getPoolForTenant` call. -/
structure UserValidation where
  res : Except (Nat × String) TokenPayload
  clientLeased : Bool
  clientReleased : Bool
  poolState : PoolState

/-- Steps 4-7 of the middleware for a non-sysadmin role: lease a client from
the main pool, run the college join query and tenant query, release the
client, obtain the tenant pool and run the user query, check the user
status, and patch `college_id`/`tenant_id` into the payload.  A thrown query
error is caught and answered with 500; the catch path performs no release. -/
def validateCollegeUser (st : PoolState) (env : AuthEnv) (payload : TokenPayload) :
    UserValidation :=
  if env.connectOk = false then
    ⟨.error (500, ("Internal server error")), false, false, st⟩
  else
    match env.collegeQ payload.id with
    | .throws => ⟨.error (500, ("Internal server error")), true, false, st⟩
    | .rows [] => ⟨.error (401, ("Invalid or expired token")), true, true, st⟩
    | .rows (college :: _) =>
      match env.tenantQ college.tenant_id with
      | .throws => ⟨.error (500, ("Internal server error")), true, false, st⟩
      | .rows [] => ⟨.error (401, ("Invalid or expired token")), true, true, st⟩
      | .rows (tenant :: _) =>
        match getPoolForTenant st (some (tenantDescOfRow tenant)) with
        | (.error _, st') => ⟨.error (500, ("Internal server error")), true, true, st'⟩
        | (.ok _, st') =>
          match env.userQ payload.id with
          | .throws => ⟨.error (500, ("Internal server error")), true, true, st'⟩
          | .rows [] => ⟨.error (401, ("Invalid or expired token")), true, true, st'⟩
          | .rows (row :: _) =>
            let dbUser := projectUser row
            if dbUser.user_status ≠ ("active") then
              ⟨.error (401, ("User account is not active")), true, true, st'⟩
            else
              ⟨.ok { payload with
                      college_id := some dbUser.college_id,
                      tenant_id := some tenant.tenant_id },
                true, true, st'⟩

/-- Step 8 of the middleware (tenant access isolation) followed by step 9:
for a non-sysadmin principal with a resolved tenant context, a college-id
mismatch is a 403; otherwise the principal is attached. -/
def tenantIsolation (req : AuthRequest) (payload : TokenPayload) : AuthOutcome :=
  match req.tenant with
  | some t =>
    if payload.role ≠ ("sysadmin") ∧ payload.college_id ≠ some t.college_id then
      .rejected 403 ("Forbidden - insufficient permissions")
    else .authenticated payload
  | none => .authenticated payload

/-- The full `authMiddleware` pipeline. -/
def authMiddleware (st : PoolState) (env : AuthEnv) (req : AuthRequest) :
    AuthResult × PoolState :=
  match parseBearer req.authHeader with
  | .error (s, m) => (⟨.rejected s m, false, false⟩, st)
  | .ok token =>
    match env.verify token with
    | none => (⟨.rejected 401 ("Invalid or expired token"), false, false⟩, st)
    | some payload =>
      if payload.role ≠ ("sysadmin") then
        match validateCollegeUser st env payload with
        | ⟨.error (s, m), l, r, st'⟩ => (⟨.rejected s m, l, r⟩, st')
        | ⟨.ok payload2, l, r, st'⟩ => (⟨tenantIsolation req payload2, l, r⟩, st')
      else
        (⟨tenantIsolation req payload, false, false⟩, st)

/-! ## TransactionalWriteProtocol services

`StudentService.registerStudent`, `UserService.create` and
`TenantService.create` are embedded over an explicit table state; the
precondition queries are computed from that state (embedding their SQL
`WHERE` clauses), while the two failure points the claims are about — the
`INSERT` raising a database error (e.g. a unique-constraint violation from a
concurrent commit) and `ROLLBACK` itself failing — are injected through a
`WriteEnv`.  Transaction semantics: the persisted state changes only on
`COMMIT`; every error path returns the original state. -/

/-- A thrown database error: the PostgreSQL `code` (absent on plain
`new Error(...)` throws) and the message. -/
structure DbError where
  code : Option String
  message : String
deriving DecidableEq

/-- Failure injection and opaque primitives for a service call: the password
hash primitive, the result of the `INSERT` statement (`none` = succeeds) and
the result of any `ROLLBACK` statement (`none` = succeeds). -/
structure WriteEnv where
  hash : String → String
  insertErr : Option DbError := none
  rollbackErr : Option DbError := none

/-- Result of one transactional service call over table state `σ`:
the value or surfaced error, the persisted state, whether the leased client
was released, whether a `ROLLBACK` statement completed successfully, and
whether the transaction committed. -/
structure TxnResult (σ α : Type) where
  result : Except DbError α
  db : σ
  released : Bool
  rolledBack : Bool
  committed : Bool

/-- The error translation shared by `StudentService.registerStudent` and
`UserService.create`: unique violation (`23505`) becomes
`Email already exists`, foreign-key violation (`23503`) becomes
`Invalid college reference`, anything else is re-raised unchanged. -/
def translateWriteErr (err : DbError) : DbError :=
  if err.code = some ("23505") then ⟨none, ("Email already exists")⟩
  else if err.code = some ("23503") then ⟨none, ("Invalid college reference")⟩
  else err

/-- The guarded catch block of the student/user services: `ROLLBACK` is
attempted inside its own `try` whose failure is only logged, then the caught
error is translated and re-raised; `finally` releases the client. -/
def guardedCatch {σ α : Type} (env : WriteEnv) (db0 : σ) (err : DbError) :
    TxnResult σ α :=
  ⟨.error (translateWriteErr err), db0, true, env.rollbackErr = none, false⟩

/-- A precondition failure inside the `try` of the student/user services:
`await client.query('ROLLBACK')` runs first (if it throws, that error is
what reaches the catch block), then `throw new Error(msg)`. -/
def guardedRaise {σ α : Type} (env : WriteEnv) (db0 : σ) (msg : String) :
    TxnResult σ α :=
  match env.rollbackErr with
  | some re => guardedCatch env db0 re
  | none => guardedCatch env db0 ⟨none, msg⟩

/-- Input of `StudentService.registerStudent`. -/
structure RegData where
  college_id : String
  student_name : String
  student_email : String
  student_password : String
  student_department : String
  student_year : String

/-- A persisted row of the `students` table. -/
structure StudentRow where
  student_id : Nat
  college_id : String
  student_name : String
  student_email : String
  student_password : String
  student_department : String
  student_year : String
  student_status : String
deriving DecidableEq

/-- A persisted row of the `colleges` table (the columns the services read). -/
structure CollegeRec where
  college_id : String
  college_status : String
deriving DecidableEq

/-- Table state seen by `StudentService.registerStudent`. -/
structure StudentDb where
  colleges : List CollegeRec
  students : List StudentRow
  nextStudentId : Nat
deriving DecidableEq

/-- Embedding of `StudentService.registerStudent(data)`: serializable
transaction; verify the college exists and is active; hash the password;
check email uniqueness with
`WHERE LOWER(student_email) = LOWER($1) AND college_id = $2 LIMIT 1`;
insert; commit.  Any failure rolls back (rollback errors swallowed) and the
caught error is translated by `translateWriteErr`. -/
def registerStudent (env : WriteEnv) (db : StudentDb) (d : RegData) :
    TxnResult StudentDb StudentRow :=
  match (db.colleges.filter fun c => c.college_id == d.college_id).take 1 with
  | [] => guardedRaise env db ("College not found")
  | college :: _ =>
    if college.college_status ≠ ("active") then
      guardedRaise env db ("College is inactive")
    else
      let hashed := env.hash d.student_password
      match (db.students.filter fun s =>
          lowerStr s.student_email == lowerStr d.student_email &&
          s.college_id == d.college_id).take 1 with
      | _ :: _ => guardedRaise env db ("Email already exists")
      | [] =>
        match env.insertErr with
        | some e => guardedCatch env db e
        | none =>
          let row : StudentRow :=
            ⟨db.nextStudentId, d.college_id, d.student_name, d.student_email,
              hashed, d.student_department, d.student_year, ("active")⟩
          ⟨.ok row, ⟨db.colleges, db.students ++ [row], db.nextStudentId + 1⟩,
            true, false, true⟩

/-- The error-to-HTTP mapping of the student registration controller
(`registerStudent` in the student controller): `already exists` ⇒ 409,
`not found`/`inactive` ⇒ 400, `Access denied` ⇒ 403, otherwise 500. -/
def registerStudentHttpStatus (err : DbError) : Nat :=
  if hasSubstr err.message.data ("already exists").data then 409
  else if hasSubstr err.message.data ("not found").data ||
      hasSubstr err.message.data ("inactive").data then 400
  else if hasSubstr err.message.data ("Access denied").data then 403
  else 500

/-- Input of `UserService.create`. -/
structure UserData where
  college_id : String
  user_name : String
  user_email : String
  user_password : String
  user_role : String

/-- A persisted row of the `users` table as the user service writes it. -/
structure UserRec where
  user_id : Nat
  college_id : String
  user_name : String
  user_email : String
  user_password : String
  user_role : String
  user_status : String
deriving DecidableEq

/-- Table state seen by `UserService.create`. -/
structure UserDb where
  colleges : List CollegeRec
  users : List UserRec
  nextUserId : Nat
deriving DecidableEq

/-- Embedding of `UserService.create(data)`: serializable transaction;
verify the college exists and is active; validate the role against the
fixed set; hash the password; check email uniqueness with
`WHERE LOWER(user_email) = LOWER($1) LIMIT 1` (no college filter in the
source); insert; commit. -/
def createUser (env : WriteEnv) (db : UserDb) (d : UserData) :
    TxnResult UserDb UserRec :=
  match (db.colleges.filter fun c => c.college_id == d.college_id).take 1 with
  | [] => guardedRaise env db ("College not found")
  | college :: _ =>
    if college.college_status ≠ ("active") then
      guardedRaise env db ("College is inactive")
    else if (d.user_role ∈ [("admin"), ("teacher"), ("student"), ("other")]) = false then
      guardedRaise env db (("Invalid role: ") ++ d.user_role)
    else
      let hashed := env.hash d.user_password
      match (db.users.filter fun u =>
          lowerStr u.user_email == lowerStr d.user_email).take 1 with
      | _ :: _ => guardedRaise env db ("Email already exists")
      | [] =>
        match env.insertErr with
        | some e => guardedCatch env db e
        | none =>
          let row : UserRec :=
            ⟨db.nextUserId, d.college_id, d.user_name, d.user_email,
              hashed, d.user_role, ("active")⟩
          ⟨.ok row, ⟨db.colleges, db.users ++ [row], db.nextUserId + 1⟩,
            true, false, true⟩

/-- Input of `TenantService.create`. -/
structure TenantData where
  tenant_name : String
  db_url : Option String

/-- A persisted row of the `tenants` table. -/
structure TenantRec where
  tenant_id : Nat
  tenant_name : String
  db_url : Option String
  status : String
deriving DecidableEq

/-- Table state seen by `TenantService.create`. -/
structure TenantDb where
  tenants : List TenantRec
  nextTenantId : Nat
deriving DecidableEq

/-- The catch block of `TenantService.create`: `await client.query('ROLLBACK')`
is NOT wrapped — if the rollback fails, that failure propagates out of the
catch block (skipping the unique-violation translation) and replaces the
original error; only when the rollback succeeds is the caught error
translated (`23505` ⇒ `Tenant with this name already exists`) and re-raised.
`finally` releases the client either way. -/
def tenantCatch {α : Type} (env : WriteEnv) (db0 : TenantDb) (err : DbError) :
    TxnResult TenantDb α :=
  match env.rollbackErr with
  | some re => ⟨.error re, db0, true, false, false⟩
  | none =>
    ⟨.error (if err.code = some ("23505") then
        ⟨none, ("Tenant with this name already exists")⟩ else err),
      db0, true, true, false⟩

/-- A precondition failure inside the `try` of `TenantService.create`:
rollback, then throw; a rollback failure becomes the error the catch block
sees. -/
def tenantRaise {α : Type} (env : WriteEnv) (db0 : TenantDb) (msg : String) :
    TxnResult TenantDb α :=
  match env.rollbackErr with
  | some re => tenantCatch env db0 re
  | none => tenantCatch env db0 ⟨none, msg⟩

/-- Embedding of `TenantService.create(data)`: serializable transaction;
check no active tenant has the same name (case-insensitive); insert; commit.
The success value is `insertResult.rows` (the row list, as in the source). -/
def createTenant (env : WriteEnv) (db : TenantDb) (d : TenantData) :
    TxnResult TenantDb (List TenantRec) :=
  match (db.tenants.filter fun t =>
      lowerStr t.tenant_name == lowerStr d.tenant_name &&
      t.status == ("active")).take 1 with
  | _ :: _ => tenantRaise env db ("Tenant with this name already exists")
  | [] =>
    match env.insertErr with
    | some e => tenantCatch env db e
    | none =>
      let row : TenantRec := ⟨db.nextTenantId, d.tenant_name, d.db_url, ("active")⟩
      ⟨.ok [row], ⟨db.tenants ++ [row], db.nextTenantId + 1⟩, true, false, true⟩

/-! ## Concrete fixtures used by the witnesses and counterexamples -/

/-- A valid tenant descriptor with a dedicated connection string. -/
def tenantT2 : TenantDesc := ⟨some ("T2"), some ("Tenant Two"), some ("postgres://t2")⟩

/-- A second valid descriptor with a different connection string. -/
def tenantT3 : TenantDesc := ⟨some ("T3"), some ("Tenant Three"), some ("postgres://t3")⟩

/-- A malformed descriptor: connection string present, `tenant_id` missing. -/
def tenantNoId : TenantDesc := ⟨none, some ("Tenant X"), some ("postgres://tx")⟩

/-- Pool state after constructing the pool for `tenantT2` from the initial
state. -/
def poolSt1 : PoolState := ⟨2, [(("postgres://t2"), 1)]⟩

/-- Auth environment where the subject's user row is active but the joined
college row and the tenant row both carry status `inactive`. -/
def envInactiveOrg : AuthEnv :=
  { verify := fun _ => some ⟨("u1"), ("admin"), none, none⟩
    connectOk := true
    collegeQ := fun _ => .rows [⟨("C1"), ("T1"), ("inactive")⟩]
    tenantQ := fun _ => .rows [⟨("T1"), ("Tenant One"), none, ("inactive")⟩]
    userQ := fun _ => .rows [⟨("u1"), ("active"), ("C1"), ("admin")⟩] }

/-- Auth environment where the stored `user_role` column (`teacher`) differs
from the token's role claim (`admin`); everything is active. -/
def envRoleDrift : AuthEnv :=
  { verify := fun _ => some ⟨("u2"), ("admin"), none, none⟩
    connectOk := true
    collegeQ := fun _ => .rows [⟨("C1"), ("T1"), ("active")⟩]
    tenantQ := fun _ => .rows [⟨("T1"), ("Tenant One"), none, ("active")⟩]
    userQ := fun _ => .rows [⟨("u2"), ("active"), ("C1"), ("teacher")⟩] }

/-- Auth environment where the stored user status is `suspended`. -/
def envSuspendedUser : AuthEnv :=
  { verify := fun _ => some ⟨("u3"), ("teacher"), none, none⟩
    connectOk := true
    collegeQ := fun _ => .rows [⟨("C1"), ("T1"), ("active")⟩]
    tenantQ := fun _ => .rows [⟨("T1"), ("Tenant One"), none, ("active")⟩]
    userQ := fun _ => .rows [⟨("u3"), ("suspended"), ("C1"), ("teacher")⟩] }

/-- Auth environment where the college join query throws after the client
has been leased. -/
def envQueryThrows : AuthEnv :=
  { verify := fun _ => some ⟨("u1"), ("admin"), none, none⟩
    connectOk := true
    collegeQ := fun _ => .throws
    tenantQ := fun _ => .rows []
    userQ := fun _ => .rows [] }

/-- A request with a well-formed bearer header and no resolved tenant
context. -/
def reqNoTenant : AuthRequest := ⟨some ("Bearer token1"), none⟩

/-- A request with a well-formed bearer header whose resolved tenant context
is college `C2`. -/
def reqTenantC2 : AuthRequest := ⟨some ("Bearer token1"), some ⟨("C2"), ("other")⟩⟩

/-- Write environment with no injected failures. -/
def envPlain : WriteEnv := ⟨fun p => ("hash-") ++ p, none, none⟩

/-- Write environment where the `INSERT` raises a unique-constraint
violation (as from a concurrent identical commit) and `ROLLBACK` succeeds. -/
def envUniqueClash : WriteEnv :=
  ⟨fun p => ("hash-") ++ p,
    some ⟨some ("23505"), ("duplicate key value violates unique constraint")⟩,
    none⟩

/-- Write environment where the `INSERT` raises a unique-constraint
violation and the subsequent `ROLLBACK` itself also fails. -/
def envRollbackFail : WriteEnv :=
  ⟨fun p => ("hash-") ++ p,
    some ⟨some ("23505"), ("duplicate key value violates unique constraint")⟩,
    some ⟨some ("57P01"), ("terminating connection due to administrator command")⟩⟩

/-- Student table state: one active college `C1`, no students yet. -/
def dbOneCollege : StudentDb := ⟨[⟨("C1"), ("active")⟩], [], 1⟩

/-- Registration data for a student of college `C1`. -/
def regAda : RegData :=
  ⟨("C1"), ("Ada"), ("ada@x.com"), ("pw12345678"), ("CS"), ("2026")⟩

/-- User table state: active college `C1`, and one existing user whose email
`bob@x.com` belongs to a different college `C2`. -/
def dbUsersCross : UserDb :=
  ⟨[⟨("C1"), ("active")⟩],
    [⟨1, ("C2"), ("Bob"), ("bob@x.com"), ("h"), ("admin"), ("active")⟩], 2⟩

/-- User-creation data for college `C1` reusing Bob's email in a different
case. -/
def uDataClash : UserData :=
  ⟨("C1"), ("Eve"), ("BOB@X.COM"), ("pw12345678"), ("teacher")⟩

/-- Tenant table state with no tenants. -/
def dbNoTenants : TenantDb := ⟨[], 1⟩

/-- Tenant-creation data. -/
def tDataAcme : TenantData := ⟨("Acme"), none⟩

/-- User table state: active college `C1`, no users yet. -/
def dbUsersEmpty : UserDb := ⟨[⟨("C1"), ("active")⟩], [], 1⟩

/-- User-creation data with a fresh email. -/
def uDataFresh : UserData :=
  ⟨("C1"), ("Eve"), ("eve@x.com"), ("pw12345678"), ("teacher")⟩

/-- Student table state: active college `C1`, and one existing student whose
email `bob@x.com` belongs to a different college `C2`. -/
def dbStudentsCross : StudentDb :=
  ⟨[⟨("C1"), ("active")⟩],
    [⟨1, ("C2"), ("Bob"), ("bob@x.com"), ("h"), ("CS"), ("2026"), ("active")⟩], 2⟩

/-- Registration data for college `C1` reusing Bob's email in a different
case. -/
def regBobC1 : RegData :=
  ⟨("C1"), ("Robert"), ("BOB@x.com"), ("pw12345678"), ("CS"), ("2026")⟩

/-! ## Helper lemmas -/

theorem assocFind_mem {l : List (String × Nat)} {k : String} {v : Nat}
    (h : assocFind l k = some v) : v ∈ l.map Prod.snd := by
  induction l with
  | nil => simp [assocFind] at h
  | cons p rest ih =>
    obtain ⟨pk, pv⟩ := p
    simp only [assocFind] at h
    split at h
    · injection h with h
      simp [h]
    · simp [ih h]

theorem assocFind_nodup_ne {l : List (String × Nat)}
    (hnd : (l.map Prod.snd).Nodup) {k1 k2 : String} {v1 v2 : Nat}
    (hk : k1 ≠ k2) (h1 : assocFind l k1 = some v1)
    (h2 : assocFind l k2 = some v2) : v1 ≠ v2 := by
  induction l with
  | nil => simp [assocFind] at h1
  | cons p rest ih =>
    obtain ⟨pk, pv⟩ := p
    simp only [assocFind] at h1 h2
    simp only [List.map_cons, List.nodup_cons] at hnd
    split at h1
    · rename_i hpk1
      injection h1 with h1
      subst h1
      split at h2
      · rename_i hpk2
        exact absurd (hpk1.symm.trans hpk2) hk
      · have hv2 : v2 ∈ rest.map Prod.snd := assocFind_mem h2
        intro he
        exact hnd.1 (he ▸ hv2)
    · split at h2
      · rename_i hpk2
        injection h2 with h2
        subst h2
        have hv1 : v1 ∈ rest.map Prod.snd := assocFind_mem h1
        intro he
        exact hnd.1 (he ▸ hv1)
      · exact ih hnd.2 h1 h2

theorem splitOnChar_ne_nil (c : Char) (l : List Char) : splitOnChar c l ≠ [] := by
  induction l with
  | nil => simp [splitOnChar]
  | cons x xs ih =>
    simp only [splitOnChar]
    split
    · simp
    · cases h : splitOnChar c xs with
      | nil => simp
      | cons y ys => simp [h]

theorem splitOnChar_single {c : Char} {l : List Char} (h : c ∉ l) :
    splitOnChar c l = [l] := by
  induction l with
  | nil => rfl
  | cons x xs ih =>
    simp only [List.mem_cons, not_or] at h
    obtain ⟨hx, hxs⟩ := h
    simp only [splitOnChar]
    rw [if_neg (fun he => hx he.symm), ih hxs]

theorem splitOnChar_append {c : Char} {a : List Char} (b : List Char)
    (h : c ∉ a) : splitOnChar c (a ++ c :: b) = a :: splitOnChar c b := by
  induction a with
  | nil => simp [splitOnChar]
  | cons x xs ih =>
    simp only [List.mem_cons, not_or] at h
    obtain ⟨hx, hxs⟩ := h
    simp only [List.cons_append, splitOnChar, List.append_eq]
    rw [if_neg (fun he => hx he.symm), ih hxs]

/-! ## Claim C7: pool caching and distinctness -/

/-- Claim C7: for every well-formed pool state and valid tenant descriptor
carrying a connection string, calling `getPoolForTenant` twice with the same
descriptor returns the identical pool with the state unchanged by the second
call (cache hit, no second pool constructed), the state stays well-formed,
and any descriptor with a different connection string yields a distinct
pool. -/
theorem getPoolForTenant_cached_and_distinct
    (s : PoolState) (t : TenantDesc) (u : String) (p : Nat) (s' : PoolState)
    (hwf : PoolWF s) (hu : t.db_url = some u) (hne : u ≠ "")
    (hval : (validateTenant (some t)).valid = true)
    (hcall : getPoolForTenant s (some t) = (.ok p, s')) :
    getPoolForTenant s' (some t) = (.ok p, s') ∧ PoolWF s' ∧
    ∀ (t2 : TenantDesc) (u2 : String) (p2 : Nat) (s2 : PoolState),
      t2.db_url = some u2 → u2 ≠ "" → u2 ≠ u →
      getPoolForTenant s' (some t2) = (.ok p2, s2) → p2 ≠ p := by
  obtain ⟨hpos, hnd, hbound⟩ := hwf
  simp only [getPoolForTenant, hu, hval, if_neg hne, Bool.true_eq_false,
    if_false] at hcall
  have hdistinct : ∀ (t2 : TenantDesc) (u2 : String) (p2 : Nat) (s2 : PoolState),
      PoolWF s' → assocFind s'.tenantPools u = some p →
      t2.db_url = some u2 → u2 ≠ "" → u2 ≠ u →
      getPoolForTenant s' (some t2) = (.ok p2, s2) → p2 ≠ p := by
    intro t2 u2 p2 s2 hwf' hfind hu2 hne2 huu hcall2
    simp only [getPoolForTenant, hu2, if_neg hne2] at hcall2
    by_cases hval2 : (validateTenant (some t2)).valid = true
    · simp only [hval2, Bool.true_eq_false, if_false] at hcall2
      cases hfind2 : assocFind s'.tenantPools u2 with
      | some q =>
        rw [hfind2] at hcall2
        injection hcall2 with hres _
        injection hres with hres
        subst hres
        exact assocFind_nodup_ne hwf'.2.1 huu hfind2 hfind
      | none =>
        rw [hfind2] at hcall2
        injection hcall2 with hres _
        injection hres with hres
        subst hres
        have hmem := assocFind_mem hfind
        have := (hwf'.2.2 p hmem).2
        omega
    · simp only [eq_true_of_ne_false] at hval2
      simp only [Bool.not_eq_true] at hval2
      simp only [hval2, if_true] at hcall2
      exact absurd hcall2 (by simp)
  cases hfind : assocFind s.tenantPools u with
  | some q =>
    rw [hfind] at hcall
    injection hcall with hres hst
    injection hres with hres
    subst hres
    subst hst
    refine ⟨?_, ⟨hpos, hnd, hbound⟩, ?_⟩
    · simp only [getPoolForTenant, hu, hval, if_neg hne, Bool.true_eq_false,
        if_false, hfind]
    · exact fun t2 u2 p2 s2 h1 h2 h3 h4 =>
        hdistinct t2 u2 p2 s2 ⟨hpos, hnd, hbound⟩ hfind h1 h2 h3 h4
  | none =>
    rw [hfind] at hcall
    injection hcall with hres hst
    injection hres with hres
    subst hres
    have hwf' : PoolWF s' := by
      subst hst
      refine ⟨?_, ?_, ?_⟩
      · dsimp only
        omega
      · dsimp only
        simp only [List.map_cons, List.nodup_cons]
        constructor
        · intro hmem
          have := (hbound _ hmem).2
          omega
        · exact hnd
      · dsimp only
        intro v hv
        simp only [List.map_cons, List.mem_cons] at hv
        rcases hv with hv | hv
        · omega
        · have := hbound v hv
          omega
    have hfind' : assocFind s'.tenantPools u = some s.nextId := by
      subst hst
      simp [assocFind]
    refine ⟨?_, hwf', ?_⟩
    · simp only [getPoolForTenant, hu, hval, if_neg hne, Bool.true_eq_false,
        if_false, hfind']
    · exact fun t2 u2 p2 s2 h1 h2 h3 h4 =>
        hdistinct t2 u2 p2 s2 hwf' hfind' h1 h2 h3 h4

/-- Witness for C7: from the initial state, the pool for `tenantT2` is
constructed once (id 1) and a second call is a cache hit returning the same
pool with the cache untouched; a descriptor with a different connection
string gets a distinct pool. -/
theorem getPoolForTenant_cached_witness :
    getPoolForTenant poolSt1 (some tenantT2) = (.ok 1, poolSt1) ∧
    (2 : Nat) ≠ 1 := by
  have h := getPoolForTenant_cached_and_distinct initPoolState tenantT2
    ("postgres://t2") 1 poolSt1 (by decide) rfl (by decide) rfl rfl
  refine ⟨h.1, ?_⟩
  exact h.2.2 tenantT3 ("postgres://t3") 2 ⟨3, [(("postgres://t3"), 2), (("postgres://t2"), 1)]⟩
    rfl (by decide) (by decide) rfl

/-! ## Claim C8: malformed descriptor raises and is never cached -/

/-- Claim C8: a descriptor that carries a connection string but has a
missing or empty tenant id or tenant name makes `getPoolForTenant` throw the
validation error and leaves the pool state (in particular the cache)
unchanged. -/
theorem getPoolForTenant_malformed (s : PoolState) (t : TenantDesc) (u : String)
    (hu : t.db_url = some u) (hne : u ≠ "")
    (hbad : t.tenant_id = none ∨ t.tenant_id = some ("") ∨
      t.tenant_name = none ∨ t.tenant_name = some ("")) :
    getPoolForTenant s (some t) =
      (.error ((validateTenant (some t)).error.getD ("")), s) ∧
    (validateTenant (some t)).valid = false := by
  have hval : (validateTenant (some t)).valid = false := by
    simp only [validateTenant]
    rcases hbad with h | h | h | h
    · simp [h]
    · simp [h]
    · split
      · rfl
      · simp [h]
    · split
      · rfl
      · simp [h]
  constructor
  · simp only [getPoolForTenant, hu, if_neg hne, hval, if_true]
  · exact hval

/-- Witness for C8: the descriptor with a missing tenant id throws
`Tenant must have valid tenant_id` from the initial state, which is
returned unchanged. -/
theorem getPoolForTenant_malformed_witness :
    getPoolForTenant initPoolState (some tenantNoId) =
      (.error ("Tenant must have valid tenant_id"), initPoolState) := by
  have h := getPoolForTenant_malformed initPoolState tenantNoId
    ("postgres://tx") rfl (by decide) (Or.inl rfl)
  exact h.1

/-! ## Helper lemmas about the authentication gate -/

theorem tenantIsolation_ok {req : AuthRequest} {payload p : TokenPayload}
    (h : tenantIsolation req payload = .authenticated p) :
    p = payload ∧
      ∀ t, req.tenant = some t → p.role ≠ ("sysadmin") →
        p.college_id = some t.college_id := by
  cases hrt : req.tenant with
  | none =>
    simp only [tenantIsolation, hrt] at h
    injection h with h
    refine ⟨h.symm, fun t ht => ?_⟩
    exact nomatch ht
  | some t =>
    simp only [tenantIsolation, hrt] at h
    split at h
    · cases h
    · rename_i hcond
      injection h with h
      subst h
      rw [not_and_or, not_not, not_not] at hcond
      refine ⟨rfl, fun t' ht' hrole => ?_⟩
      injection ht' with ht'
      subst ht'
      rcases hcond with hcond | hcond
      · exact absurd hcond hrole
      · exact hcond

theorem validateCollegeUser_ok {st : PoolState} {env : AuthEnv}
    {payload p2 : TokenPayload} {l r : Bool} {st' : PoolState}
    (h : validateCollegeUser st env payload = ⟨.ok p2, l, r, st'⟩) :
    p2.role = payload.role ∧ p2.id = payload.id ∧
    ∃ (row : UserTableRow) (rs : List UserTableRow)
      (tenant : TenantRow) (ts : List TenantRow)
      (college : CollegeJoinRow) (cs : List CollegeJoinRow),
      env.collegeQ payload.id = .rows (college :: cs) ∧
      env.tenantQ college.tenant_id = .rows (tenant :: ts) ∧
      env.userQ payload.id = .rows (row :: rs) ∧
      row.user_status = ("active") ∧
      p2.college_id = some row.college_id ∧
      p2.tenant_id = some tenant.tenant_id := by
  unfold validateCollegeUser at h
  split at h
  · simp at h
  · split at h
    · simp at h
    · simp at h
    · rename_i college cs hcq
      split at h
      · simp at h
      · simp at h
      · rename_i tenant ts htq
        split at h
        · simp at h
        · rename_i pid st2 hpool
          split at h
          · simp at h
          · simp at h
          · rename_i row rs huq
            dsimp only at h
            split at h
            · simp at h
            · rename_i hstat
              rw [Ne, not_not] at hstat
              injection h with hres _ _ _
              injection hres with hres
              subst hres
              refine ⟨rfl, rfl, row, rs, tenant, ts, college, cs,
                hcq, htq, huq, ?_, rfl, rfl⟩
              simpa [projectUser] using hstat

theorem authMiddleware_ok_shape {st : PoolState} {env : AuthEnv}
    {req : AuthRequest} {p : TokenPayload}
    (h : (authMiddleware st env req).1.outcome = .authenticated p) :
    ∃ (tok : List Char) (payload : TokenPayload),
      parseBearer req.authHeader = .ok tok ∧
      env.verify tok = some payload ∧
      ((payload.role = ("sysadmin") ∧
          tenantIsolation req payload = .authenticated p) ∨
       (payload.role ≠ ("sysadmin") ∧
          ∃ (payload2 : TokenPayload) (l r : Bool) (st' : PoolState),
            validateCollegeUser st env payload = ⟨.ok payload2, l, r, st'⟩ ∧
            tenantIsolation req payload2 = .authenticated p)) := by
  unfold authMiddleware at h
  split at h
  · simp at h
  · rename_i tok hpb
    split at h
    · simp at h
    · rename_i payload hv
      split at h
      · rename_i hrole
        split at h
        · simp at h
        · rename_i payload2 l r st' hval
          refine ⟨tok, payload, hpb, hv, Or.inr ⟨hrole, payload2, l, r, st', hval, ?_⟩⟩
          exact h
      · rename_i hrole
        rw [Ne, not_not] at hrole
        exact ⟨tok, payload, hpb, hv, Or.inl ⟨hrole, h⟩⟩

/-! ## Claim C10: leaked client on query error -/

/-- Claim C10: there is an execution of the middleware — a verified
non-sysadmin token whose college query throws after the main-pool client was
leased — that answers 500 with the leased client never released. -/
theorem authMiddleware_leaks_client :
    (authMiddleware initPoolState envQueryThrows reqNoTenant).1 =
      ⟨.rejected 500 ("Internal server error"), true, false⟩ := rfl

/-! ## Claim C1: which statuses the gate actually checks -/

/-- Counterexample to C1: a verified non-sysadmin token whose user row is
active is authenticated (the request proceeds) even though the joined
college row and the owning tenant row both have status `inactive`; the
claimed 401 rejection does not happen. -/
theorem authMiddleware_inactive_org_counterexample :
    (authMiddleware initPoolState envInactiveOrg reqNoTenant).1.outcome =
      .authenticated ⟨("u1"), ("admin"), some ("C1"), some ("T1")⟩ ∧
    envInactiveOrg.collegeQ ("u1") = .rows [⟨("C1"), ("T1"), ("inactive")⟩] ∧
    envInactiveOrg.tenantQ ("T1") =
      .rows [⟨("T1"), ("Tenant One"), none, ("inactive")⟩] :=
  ⟨rfl, rfl, rfl⟩

/-- Claim C1 (amended): for a verified non-sysadmin token, the gate rejects
with 401 (`User account is not active`) exactly when the re-read user
record's status is not active; the fetched college and tenant status columns
are not part of the check. -/
theorem authMiddleware_rejects_inactive_user
    (st : PoolState) (env : AuthEnv) (req : AuthRequest)
    (h : String) (tok : List Char) (payload : TokenPayload)
    (college : CollegeJoinRow) (cs : List CollegeJoinRow)
    (tenant : TenantRow) (ts : List TenantRow)
    (pid : Nat) (stp : PoolState)
    (row : UserTableRow) (rs : List UserTableRow)
    (hh : req.authHeader = some h)
    (hsplit : splitOnChar ' ' h.data = [("Bearer").data, tok])
    (htok : tok ≠ [])
    (hv : env.verify tok = some payload)
    (hrole : payload.role ≠ ("sysadmin"))
    (hconn : env.connectOk = true)
    (hcq : env.collegeQ payload.id = .rows (college :: cs))
    (htq : env.tenantQ college.tenant_id = .rows (tenant :: ts))
    (hpool : getPoolForTenant st (some (tenantDescOfRow tenant)) = (.ok pid, stp))
    (huq : env.userQ payload.id = .rows (row :: rs))
    (hstat : row.user_status ≠ ("active")) :
    (authMiddleware st env req).1.outcome =
      .rejected 401 ("User account is not active") := by
  simp [authMiddleware, parseBearer, validateCollegeUser, projectUser,
    hh, hsplit, htok, hv, hrole, hconn, hcq, htq, hpool, huq, hstat]

/-- Witness for the amended C1: a suspended user row yields the 401. -/
theorem authMiddleware_rejects_inactive_user_witness :
    (authMiddleware initPoolState envSuspendedUser reqNoTenant).1.outcome =
      .rejected 401 ("User account is not active") :=
  authMiddleware_rejects_inactive_user initPoolState envSuspendedUser
    reqNoTenant ("Bearer token1") (("token1").data)
    ⟨("u3"), ("teacher"), none, none⟩
    ⟨("C1"), ("T1"), ("active")⟩ [] ⟨("T1"), ("Tenant One"), none, ("active")⟩ []
    mainPoolId initPoolState ⟨("u3"), ("suspended"), ("C1"), ("teacher")⟩ []
    rfl (by decide) (by decide) rfl (by decide) rfl rfl rfl rfl rfl (by decide)

/-! ## Claim C2: cross-tenant isolation -/

/-- Claim C2: (i) whenever the gate authenticates a non-sysadmin principal
under a resolved tenant context, the principal's college id equals the
context's college id (a request is never authorized against another
college); (ii) when the re-read user row's college differs from the
resolved context's college, the gate rejects with 403; (iii) a sysadmin
token is exempt: it is authenticated without the check. -/
theorem authMiddleware_cross_tenant :
    (∀ (st : PoolState) (env : AuthEnv) (req : AuthRequest)
        (p : TokenPayload) (t : TenantCtx),
        (authMiddleware st env req).1.outcome = .authenticated p →
        req.tenant = some t → p.role ≠ ("sysadmin") →
        p.college_id = some t.college_id) ∧
    (∀ (st : PoolState) (env : AuthEnv) (req : AuthRequest)
        (h : String) (tok : List Char) (payload : TokenPayload)
        (college : CollegeJoinRow) (cs : List CollegeJoinRow)
        (tenant : TenantRow) (ts : List TenantRow)
        (pid : Nat) (stp : PoolState)
        (row : UserTableRow) (rs : List UserTableRow) (t : TenantCtx),
        req.authHeader = some h →
        splitOnChar ' ' h.data = [("Bearer").data, tok] →
        tok ≠ [] →
        env.verify tok = some payload →
        payload.role ≠ ("sysadmin") →
        env.connectOk = true →
        env.collegeQ payload.id = .rows (college :: cs) →
        env.tenantQ college.tenant_id = .rows (tenant :: ts) →
        getPoolForTenant st (some (tenantDescOfRow tenant)) = (.ok pid, stp) →
        env.userQ payload.id = .rows (row :: rs) →
        row.user_status = ("active") →
        req.tenant = some t →
        row.college_id ≠ t.college_id →
        (authMiddleware st env req).1.outcome =
          .rejected 403 ("Forbidden - insufficient permissions")) ∧
    (∀ (st : PoolState) (env : AuthEnv) (req : AuthRequest)
        (h : String) (tok : List Char) (payload : TokenPayload),
        req.authHeader = some h →
        splitOnChar ' ' h.data = [("Bearer").data, tok] →
        tok ≠ [] →
        env.verify tok = some payload →
        payload.role = ("sysadmin") →
        (authMiddleware st env req).1.outcome = .authenticated payload) := by
  refine ⟨?_, ?_, ?_⟩
  · intro st env req p t hout hrt hrole
    obtain ⟨tok, payload, _, _, hcase⟩ := authMiddleware_ok_shape hout
    rcases hcase with ⟨_, hti⟩ | ⟨_, _, _, _, _, _, hti⟩
    · exact (tenantIsolation_ok hti).2 t hrt hrole
    · exact (tenantIsolation_ok hti).2 t hrt hrole
  · intro st env req h tok payload college cs tenant ts pid stp row rs t
      hh hsplit htok hv hrole hconn hcq htq hpool huq hstat hrt hcoll
    simp [authMiddleware, parseBearer, validateCollegeUser, projectUser,
      tenantIsolation, hh, hsplit, htok, hv, hrole, hconn, hcq, htq, hpool,
      huq, hstat, hrt, hcoll]
  · intro st env req h tok payload hh hsplit htok hv hrole
    cases hrt : req.tenant with
    | none =>
      simp [authMiddleware, parseBearer, tenantIsolation,
        hh, hsplit, htok, hv, hrole, hrt]
    | some t =>
      simp [authMiddleware, parseBearer, tenantIsolation,
        hh, hsplit, htok, hv, hrole, hrt]

/-- Witness for C2: a principal whose re-read record belongs to college `C1`
requesting under the resolved context of college `C2` is rejected with 403. -/
theorem authMiddleware_cross_tenant_witness :
    (authMiddleware initPoolState envRoleDrift reqTenantC2).1.outcome =
      .rejected 403 ("Forbidden - insufficient permissions") :=
  authMiddleware_cross_tenant.2.1 initPoolState envRoleDrift reqTenantC2
    ("Bearer token1") (("token1").data) ⟨("u2"), ("admin"), none, none⟩
    ⟨("C1"), ("T1"), ("active")⟩ [] ⟨("T1"), ("Tenant One"), none, ("active")⟩ []
    mainPoolId initPoolState ⟨("u2"), ("active"), ("C1"), ("teacher")⟩ []
    ⟨("C2"), ("other")⟩
    rfl (by decide) (by decide) rfl (by decide) rfl rfl rfl rfl rfl rfl rfl
    (by decide)

/-! ## Claim C3: what is re-read from storage on each request -/

/-- Counterexample to C3: the attached principal's role is the token's role
claim (`admin`) even though the stored `user_role` column of the re-read
user row says `teacher` — the role is not re-read from the database, so a
stored role change does not take effect on the next request. -/
theorem authMiddleware_role_from_token_counterexample :
    (authMiddleware initPoolState envRoleDrift reqNoTenant).1.outcome =
      .authenticated ⟨("u2"), ("admin"), some ("C1"), some ("T1")⟩ ∧
    envRoleDrift.userQ ("u2") =
      .rows [⟨("u2"), ("active"), ("C1"), ("teacher")⟩] ∧
    ("admin" : String) ≠ ("teacher") :=
  ⟨rfl, rfl, by decide⟩

/-- Claim C3 (amended): on every successfully authenticated request the
attached principal's role and subject id come from the token's claims (the
middleware user query does not select the stored role), while the status
check and the attached college/tenant ids come from the freshly read
records: a non-sysadmin success requires an active re-read user row and
patches its `college_id` (and the tenant row's `tenant_id`) into the
principal. -/
theorem authMiddleware_fresh_status_token_role :
    (∀ (st : PoolState) (env : AuthEnv) (req : AuthRequest)
        (tok : List Char) (payload p : TokenPayload),
        parseBearer req.authHeader = .ok tok →
        env.verify tok = some payload →
        (authMiddleware st env req).1.outcome = .authenticated p →
        p.role = payload.role ∧ p.id = payload.id) ∧
    (∀ (st : PoolState) (env : AuthEnv) (req : AuthRequest)
        (h : String) (tok : List Char) (payload : TokenPayload)
        (college : CollegeJoinRow) (cs : List CollegeJoinRow)
        (tenant : TenantRow) (ts : List TenantRow)
        (pid : Nat) (stp : PoolState)
        (row : UserTableRow) (rs : List UserTableRow),
        req.authHeader = some h →
        splitOnChar ' ' h.data = [("Bearer").data, tok] →
        tok ≠ [] →
        env.verify tok = some payload →
        payload.role ≠ ("sysadmin") →
        env.connectOk = true →
        env.collegeQ payload.id = .rows (college :: cs) →
        env.tenantQ college.tenant_id = .rows (tenant :: ts) →
        getPoolForTenant st (some (tenantDescOfRow tenant)) = (.ok pid, stp) →
        env.userQ payload.id = .rows (row :: rs) →
        row.user_status = ("active") →
        req.tenant = none →
        (authMiddleware st env req).1.outcome =
          .authenticated { payload with
            college_id := some row.college_id,
            tenant_id := some tenant.tenant_id }) := by
  constructor
  · intro st env req tok payload p hpb hv hout
    obtain ⟨tok2, payload2, hpb2, hv2, hcase⟩ := authMiddleware_ok_shape hout
    rw [hpb] at hpb2
    injection hpb2 with hpb2
    subst hpb2
    rw [hv] at hv2
    injection hv2 with hv2
    subst hv2
    rcases hcase with ⟨_, hti⟩ | ⟨_, p3, _, _, _, hval, hti⟩
    · obtain ⟨hp, _⟩ := tenantIsolation_ok hti
      subst hp
      exact ⟨rfl, rfl⟩
    · obtain ⟨hp, _⟩ := tenantIsolation_ok hti
      subst hp
      obtain ⟨hrole, hid, _⟩ := validateCollegeUser_ok hval
      exact ⟨hrole, hid⟩
  · intro st env req h tok payload college cs tenant ts pid stp row rs
      hh hsplit htok hv hrole hconn hcq htq hpool huq hstat hrt
    simp [authMiddleware, parseBearer, validateCollegeUser, projectUser,
      tenantIsolation, hh, hsplit, htok, hv, hrole, hconn, hcq, htq, hpool,
      huq, hstat, hrt]

/-- Witness for the amended C3: in the role-drift environment the attached
principal keeps the token's role `admin` and subject `u2`. -/
theorem authMiddleware_fresh_status_token_role_witness :
    (⟨("u2"), ("admin"), some ("C1"), some ("T1")⟩ : TokenPayload).role =
      ("admin") ∧
    (⟨("u2"), ("admin"), some ("C1"), some ("T1")⟩ : TokenPayload).id =
      ("u2") :=
  authMiddleware_fresh_status_token_role.1 initPoolState envRoleDrift
    reqNoTenant (("token1").data) ⟨("u2"), ("admin"), none, none⟩
    ⟨("u2"), ("admin"), some ("C1"), some ("T1")⟩ rfl rfl rfl

/-! ## Claim C4: unique violation at the write step -/

/-- Claim C4: when the `INSERT` of `registerStudent` raises a
unique-constraint violation (code 23505), the transaction is rolled back —
the persisted state is unchanged, nothing commits, the client is released —
and the surfaced error is the domain error `Email already exists` (no
database code), which the controller maps to HTTP 409. -/
theorem registerStudent_unique_violation
    (env : WriteEnv) (db : StudentDb) (d : RegData)
    (college : CollegeRec) (cs : List CollegeRec) (e : DbError)
    (hcol : db.colleges.filter (fun c => c.college_id == d.college_id) =
      college :: cs)
    (hact : college.college_status = ("active"))
    (hmail : db.students.filter (fun s =>
        lowerStr s.student_email == lowerStr d.student_email &&
        s.college_id == d.college_id) = [])
    (hins : env.insertErr = some e)
    (hcode : e.code = some ("23505"))
    (hrb : env.rollbackErr = none) :
    registerStudent env db d =
      ⟨.error ⟨none, ("Email already exists")⟩, db, true, true, false⟩ ∧
    registerStudentHttpStatus ⟨none, ("Email already exists")⟩ = 409 := by
  refine ⟨?_, by decide⟩
  simp [registerStudent, guardedCatch, translateWriteErr,
    hcol, hact, hmail, hins, hcode, hrb]

/-- Witness for C4: a concrete registration whose insert hits a 23505. -/
theorem registerStudent_unique_violation_witness :
    (registerStudent envUniqueClash dbOneCollege regAda).result =
      .error ⟨none, ("Email already exists")⟩ := by
  rw [(registerStudent_unique_violation envUniqueClash dbOneCollege regAda
    ⟨("C1"), ("active")⟩ []
    ⟨some ("23505"), ("duplicate key value violates unique constraint")⟩
    rfl rfl rfl rfl rfl rfl).1]

/-! ## Claim C5: rollback failures and the original error -/

/-- Claim C5 is a code bug in `TenantService.create` (and the college
service's create shares the same pattern): when the insert raises a
unique violation and the catch-block `ROLLBACK` itself fails, the tenant
service surfaces the rollback failure (`57P01`), replacing the original
error and skipping the domain translation — whereas the student and user
services, whose catch wraps the rollback, still surface the translated
original error `Email already exists` under the identical failure
environment. -/
theorem createTenant_rollback_masks_error :
    createTenant envRollbackFail dbNoTenants tDataAcme =
      ⟨.error ⟨some ("57P01"),
          ("terminating connection due to administrator command")⟩,
        dbNoTenants, true, false, false⟩ ∧
    (registerStudent envRollbackFail dbOneCollege regAda).result =
      .error ⟨none, ("Email already exists")⟩ ∧
    (createUser envRollbackFail dbUsersEmpty uDataFresh).result =
      .error ⟨none, ("Email already exists")⟩ :=
  ⟨rfl, rfl, rfl⟩

/-! ## Claim C6: scope of the uniqueness pre-checks -/

/-- Counterexample to C6: `UserService.create` fails with
`Email already exists` although the only user carrying that email (in any
case variant) belongs to a different college — its uniqueness check is not
scoped to the owning college. -/
theorem createUser_cross_college_email_counterexample :
    (createUser envPlain dbUsersCross uDataClash).result =
      .error ⟨none, ("Email already exists")⟩ ∧
    ∀ u ∈ dbUsersCross.users, u.college_id ≠ uDataClash.college_id :=
  ⟨rfl, by decide⟩

/-- Claim C6 (amended): the pre-insert uniqueness checks are
case-insensitive in both create operations; the student registration check
is scoped to the owning college — the same email under a different college
does not make it fail — but the user-creation check is global across
colleges, so the same email under a different college does make it fail. -/
theorem uniqueness_check_scoping :
    (∀ (env : WriteEnv) (db : StudentDb) (d : RegData)
        (college : CollegeRec) (cs : List CollegeRec),
        db.colleges.filter (fun c => c.college_id == d.college_id) =
          college :: cs →
        college.college_status = ("active") →
        (∀ s ∈ db.students,
          lowerStr s.student_email = lowerStr d.student_email →
          s.college_id ≠ d.college_id) →
        env.insertErr = none →
        (registerStudent env db d).result =
          .ok ⟨db.nextStudentId, d.college_id, d.student_name,
            d.student_email, env.hash d.student_password,
            d.student_department, d.student_year, ("active")⟩ ∧
        (registerStudent env db d).committed = true) ∧
    (∀ (env : WriteEnv) (db : StudentDb) (d : RegData)
        (college : CollegeRec) (cs : List CollegeRec) (s : StudentRow),
        db.colleges.filter (fun c => c.college_id == d.college_id) =
          college :: cs →
        college.college_status = ("active") →
        s ∈ db.students →
        lowerStr s.student_email = lowerStr d.student_email →
        s.college_id = d.college_id →
        env.rollbackErr = none →
        (registerStudent env db d).result =
          .error ⟨none, ("Email already exists")⟩) ∧
    (∀ (env : WriteEnv) (db : UserDb) (d : UserData)
        (college : CollegeRec) (cs : List CollegeRec) (u : UserRec),
        db.colleges.filter (fun c => c.college_id == d.college_id) =
          college :: cs →
        college.college_status = ("active") →
        d.user_role ∈ [("admin"), ("teacher"), ("student"), ("other")] →
        u ∈ db.users →
        lowerStr u.user_email = lowerStr d.user_email →
        env.rollbackErr = none →
        (createUser env db d).result =
          .error ⟨none, ("Email already exists")⟩) := by
  refine ⟨?_, ?_, ?_⟩
  · intro env db d college cs hcol hact hscope hins
    have hmail : db.students.filter (fun s =>
        lowerStr s.student_email == lowerStr d.student_email &&
        s.college_id == d.college_id) = [] := by
      rw [List.filter_eq_nil_iff]
      intro s hs
      cases hml : lowerStr s.student_email == lowerStr d.student_email with
      | false => simp [hml]
      | true =>
        have : s.college_id ≠ d.college_id :=
          hscope s hs (by simpa using hml)
        simp [hml, this]
    constructor
    · simp [registerStudent, hcol, hact, hmail, hins]
    · simp [registerStudent, hcol, hact, hmail, hins]
  · intro env db d college cs s hcol hact hmem hml hcid hrb
    have hp : (fun s : StudentRow =>
        lowerStr s.student_email == lowerStr d.student_email &&
        s.college_id == d.college_id) s = true := by
      simp [hml, hcid]
    have hfil : s ∈ db.students.filter (fun s =>
        lowerStr s.student_email == lowerStr d.student_email &&
        s.college_id == d.college_id) :=
      List.mem_filter.mpr ⟨hmem, hp⟩
    cases hf : db.students.filter (fun s =>
        lowerStr s.student_email == lowerStr d.student_email &&
        s.college_id == d.college_id) with
    | nil => rw [hf] at hfil; cases hfil
    | cons a as =>
      simp [registerStudent, hcol, hact, hf, guardedRaise, guardedCatch,
        translateWriteErr, hrb]
  · intro env db d college cs u hcol hact hrole hmem hml hrb
    have hp : (fun u : UserRec =>
        lowerStr u.user_email == lowerStr d.user_email) u = true := by
      simp [hml]
    have hfil : u ∈ db.users.filter (fun u =>
        lowerStr u.user_email == lowerStr d.user_email) :=
      List.mem_filter.mpr ⟨hmem, hp⟩
    cases hf : db.users.filter (fun u =>
        lowerStr u.user_email == lowerStr d.user_email) with
    | nil => rw [hf] at hfil; cases hfil
    | cons a as =>
      simp [createUser, hcol, hact, hrole, hf, guardedRaise, guardedCatch,
        translateWriteErr, hrb]

/-- Witness for the amended C6: registering `BOB@x.com` in college `C1`
succeeds although `bob@x.com` exists under college `C2` (student check is
college-scoped), while creating a user with `BOB@X.COM` in `C1` fails with
`Email already exists` because `bob@x.com` exists under `C2` (user check is
global and case-insensitive). -/
theorem uniqueness_check_scoping_witness :
    (registerStudent envPlain dbStudentsCross regBobC1).result =
      .ok ⟨2, ("C1"), ("Robert"), ("BOB@x.com"), ("hash-pw12345678"),
        ("CS"), ("2026"), ("active")⟩ ∧
    (createUser envPlain dbUsersCross uDataClash).result =
      .error ⟨none, ("Email already exists")⟩ := by
  constructor
  · exact (uniqueness_check_scoping.1 envPlain dbStudentsCross regBobC1
      ⟨("C1"), ("active")⟩ [] rfl rfl (by decide) rfl).1
  · exact uniqueness_check_scoping.2.2 envPlain dbUsersCross uDataClash
      ⟨("C1"), ("active")⟩ []
      ⟨1, ("C2"), ("Bob"), ("bob@x.com"), ("h"), ("admin"), ("active")⟩
      rfl rfl (by decide) (by decide) (by decide) rfl

/-! ## Claim C9: tenant-key extraction from the host header -/

/-- Claim C9: the tenant-key extraction strips the port (appending `:port`
never changes the result), returns `null` for the loopback hosts, and when
the leading label is a reserved system label uses the second label as the
tenant key — so a reserved-prefixed host and the bare host derive the same
(lower-cased) key; concretely, `admin.acme.example.com`,
`acme.example.com` and `ACME.Example.COM:3000` all derive `acme`. -/
theorem getSubdomainFromHost_spec :
    (∀ (h p : List Char), ':' ∉ h → h ≠ [] →
      getSubdomainFromHost (h ++ ':' :: p) = getSubdomainFromHost h) ∧
    (getSubdomainFromHost (("localhost").data) = none ∧
     getSubdomainFromHost (("127.0.0.1").data) = none) ∧
    (∀ (lbl t d : List Char),
      ':' ∉ lbl → ':' ∉ t → ':' ∉ d →
      '.' ∉ lowerChars lbl → '.' ∉ lowerChars t →
      lowerChars lbl ∈ systemLabels →
      lowerChars t ∉ systemLabels →
      lowerChars lbl ++ '.' :: (lowerChars t ++ '.' :: lowerChars d) ≠
        ("localhost").data →
      lowerChars lbl ++ '.' :: (lowerChars t ++ '.' :: lowerChars d) ≠
        ("127.0.0.1").data →
      lowerChars t ++ '.' :: lowerChars d ≠ ("localhost").data →
      lowerChars t ++ '.' :: lowerChars d ≠ ("127.0.0.1").data →
      getSubdomainFromHost (lbl ++ '.' :: (t ++ '.' :: d)) =
        some (lowerChars t) ∧
      getSubdomainFromHost (t ++ '.' :: d) = some (lowerChars t)) ∧
    (getSubdomainFromHost (("ACME.Example.COM:3000").data) =
        some (("acme").data) ∧
     getSubdomainFromHost (("admin.acme.example.com").data) =
        some (("acme").data) ∧
     getSubdomainFromHost (("acme.example.com").data) =
        some (("acme").data)) := by
  refine ⟨?_, ⟨by decide, by decide⟩, ?_, ⟨by decide, by decide, by decide⟩⟩
  · intro h p hc hne
    have hsp := splitOnChar_append p hc
    have hsh := splitOnChar_single hc
    have hne2 : h ++ ':' :: p ≠ [] := by simp
    simp only [getSubdomainFromHost, hsp, hsh, List.headD_cons,
      if_neg hne2, if_neg hne]
  · intro lbl t d hc1 hc2 hc3 hd1 hd2 hmem hnmem hL1 hL2 hR1 hR2
    have hlowdot : Char.toLower '.' = '.' := by decide
    constructor
    · have hcolon : (':' : Char) ∉ lbl ++ '.' :: (t ++ '.' :: d) := by
        intro hin
        rcases List.mem_append.mp hin with hin | hin
        · exact hc1 hin
        · rcases List.mem_cons.mp hin with hin | hin
          · exact absurd hin (by decide)
          · rcases List.mem_append.mp hin with hin | hin
            · exact hc2 hin
            · rcases List.mem_cons.mp hin with hin | hin
              · exact absurd hin (by decide)
              · exact hc3 hin
      have hne1 : lbl ++ '.' :: (t ++ '.' :: d) ≠ [] := by simp
      have hsp1 := splitOnChar_single hcolon
      have hlow : lowerChars (lbl ++ '.' :: (t ++ '.' :: d)) =
          lowerChars lbl ++ '.' :: (lowerChars t ++ '.' :: lowerChars d) := by
        simp only [lowerChars, List.map_append, List.map_cons, hlowdot]
      have hparts : splitOnChar '.'
          (lowerChars lbl ++ '.' :: (lowerChars t ++ '.' :: lowerChars d)) =
          lowerChars lbl :: lowerChars t :: splitOnChar '.' (lowerChars d) := by
        rw [splitOnChar_append _ hd1, splitOnChar_append _ hd2]
      have hloop : ¬ (lowerChars lbl ++ '.' :: (lowerChars t ++ '.' :: lowerChars d) =
          ("localhost").data ∨
          lowerChars lbl ++ '.' :: (lowerChars t ++ '.' :: lowerChars d) =
          ("127.0.0.1").data) := fun hor => hor.elim hL1 hL2
      have hlen : ¬ (lowerChars lbl :: lowerChars t ::
          splitOnChar '.' (lowerChars d)).length < 2 := by
        simp only [List.length_cons]
        omega
      simp only [getSubdomainFromHost, if_neg hne1, hsp1, List.headD_cons,
        hlow, if_neg hloop, hparts, if_neg hlen, if_pos hmem]
      simp
    · have hcolon : (':' : Char) ∉ t ++ '.' :: d := by
        intro hin
        rcases List.mem_append.mp hin with hin | hin
        · exact hc2 hin
        · rcases List.mem_cons.mp hin with hin | hin
          · exact absurd hin (by decide)
          · exact hc3 hin
      have hne1 : t ++ '.' :: d ≠ [] := by simp
      have hsp1 := splitOnChar_single hcolon
      have hlow : lowerChars (t ++ '.' :: d) =
          lowerChars t ++ '.' :: lowerChars d := by
        simp only [lowerChars, List.map_append, List.map_cons, hlowdot]
      have hparts : splitOnChar '.' (lowerChars t ++ '.' :: lowerChars d) =
          lowerChars t :: splitOnChar '.' (lowerChars d) :=
        splitOnChar_append _ hd2
      have hloop : ¬ (lowerChars t ++ '.' :: lowerChars d = ("localhost").data ∨
          lowerChars t ++ '.' :: lowerChars d = ("127.0.0.1").data) :=
        fun hor => hor.elim hR1 hR2
      have hlen : ¬ (lowerChars t :: splitOnChar '.' (lowerChars d)).length < 2 := by
        have hpos : 0 < (splitOnChar '.' (lowerChars d)).length :=
          List.length_pos.mpr (splitOnChar_ne_nil '.' (lowerChars d))
        simp only [List.length_cons]
        omega
      simp only [getSubdomainFromHost, if_neg hne1, hsp1, List.headD_cons,
        hlow, if_neg hloop, hparts, if_neg hlen, if_neg hnmem]

/-- Witness for C9: the universal components applied to
`acme.example.com:3000` (port stripping) and to the labels of
`admin.acme.example.com` (reserved-prefix equivalence). -/
theorem getSubdomainFromHost_spec_witness :
    getSubdomainFromHost ((("acme.example.com").data) ++ ':' :: (("3000").data)) =
      getSubdomainFromHost (("acme.example.com").data) ∧
    getSubdomainFromHost ((("admin").data) ++ '.' ::
        ((("acme").data) ++ '.' :: (("example.com").data))) =
      some (lowerChars (("acme").data)) := by
  constructor
  · exact getSubdomainFromHost_spec.1 (("acme.example.com").data)
      (("3000").data) (by decide) (by decide)
  · exact (getSubdomainFromHost_spec.2.2.1 (("admin").data) (("acme").data)
      (("example.com").data) (by decide) (by decide) (by decide) (by decide)
      (by decide) (by decide) (by decide) (by decide) (by decide) (by decide)
      (by decide)).1

end PCRM
